import Mathlib

set_option maxHeartbeats 1600000

/-!
Shallow embedding of the Nova IVC core of MVPWorkshop/Nova, covering
src/src/lib.rs (PublicParams, RecursiveSNARK, CompressedSNARK) and
src/src/traits/circuit.rs (StepCircuit, GenericCircuit).  The two files under
src/ are translated directly.  The collaborator modules that lib.rs calls into
(circuit.rs, nifs.rs, r1cs.rs, digest.rs, constants.rs, the frontend and the
providers) are not part of src/; they are modelled from the specification as an
abstract environment of collaborator functions (structure Env), and the
properties the specification ascribes to them are stated as explicit
hypotheses (structure Contracts) that concrete instantiations discharge.
-/

namespace Nova

/-- Modelled from the spec: the error taxonomy of section 7 (errors.rs is not
under src/).  assignmentMissing stands for the AssignmentMissing synthesis
error converted into the library error type; otherError stands for any error
kind this development does not need to distinguish, and it also models the
panic of the step-length assertion in RecursiveSNARK::new, which is not a
typed error in the source. -/
inductive NovaError where
  | invalidStepCircuitIo : NovaError
  | invalidInitialInputLength : NovaError
  | unSat : NovaError
  | proofVerifyError : NovaError
  | assignmentMissing : NovaError
  | otherError : NovaError
deriving DecidableEq

/-- The carrier types of an engine cycle (E1, E2) together with the opaque
types of the external collaborators.  F1 and F2 are the two scalar fields
(each the base field of the other curve), G1 and G2 are commitment values,
W/RW are plain and relaxed witnesses, RC/RCC random-oracle constants, CK
commitment keys, SH the matrix part of an R1CS shape, CP/CS the user step
circuits, Hint commitment-key hints, VK/DK/S the leaf-SNARK verifier keys,
derandomization keys and proofs. -/
structure Ty where
  F1 : Type
  F2 : Type
  G1 : Type
  G2 : Type
  W1 : Type
  W2 : Type
  RW1 : Type
  RW2 : Type
  RC1 : Type
  RC2 : Type
  RCC1 : Type
  RCC2 : Type
  CK1 : Type
  CK2 : Type
  SH1 : Type
  SH2 : Type
  CP : Type
  CS : Type
  Hint1 : Type
  Hint2 : Type
  VK1 : Type
  VK2 : Type
  DK1 : Type
  DK2 : Type
  S1 : Type
  S2 : Type
  deqF1 : DecidableEq F1
  deqF2 : DecidableEq F2

/-- A non-relaxed R1CS instance: a witness commitment and the public IO. -/
structure R1CSInstance (G F : Type) where
  W : G
  X : List F

/-- A relaxed R1CS instance (W, E, u, X). -/
structure RelaxedR1CSInstance (G F : Type) where
  W : G
  E : G
  u : F
  X : List F

/-- The NIFS message: the commitment to the cross term.  The same shape also
models the fully relaxed variant, which likewise carries one commitment. -/
structure NIFS (G : Type) where
  comm_T : G

/-- An R1CS shape: the number of public inputs and outputs, plus the opaque
matrix data.  Only numIo is inspected by the code under src/. -/
structure R1CSShape (SH : Type) where
  numIo : Nat
  body : SH

/-- Parameters of the augmented circuit: limb width, limb count and the
primary-role flag. -/
structure NovaAugmentedCircuitParams where
  limb_width : Nat
  n_limbs : Nat
  is_primary_circuit : Bool

/-- Modelled from the spec: constants.rs is not under src/.  The truncation
width of squeezed transcript hashes (spec section 6 says typically 250). -/
def NUM_HASH_BITS : Nat := 250

/-- Modelled from the spec: constants.rs is not under src/.  The number of
transcript elements absorbed before the 2·arity IO block. -/
def NUM_FE_WITHOUT_IO_FOR_CRHF : Nat := 17

/-- Modelled from the spec: constants.rs is not under src/.  The non-native
limb width. -/
def BN_LIMB_WIDTH : Nat := 64

/-- Modelled from the spec: constants.rs is not under src/.  The non-native
limb count. -/
def BN_N_LIMBS : Nat := 4

/-- The fixed PRNG seed 0xDEADBEEF used by RecursiveSNARK::new and
RecursiveSNARK::prove_step. -/
def NOVA_RNG_SEED : Nat := 0xDEADBEEF

/-- The public parameters as produced by setup, without the digest field. -/
structure PublicParamsCore (τ : Ty) where
  F_arity_primary : Nat
  F_arity_secondary : Nat
  ro_consts_primary : τ.RC1
  ro_consts_circuit_primary : τ.RCC2
  ck_primary : τ.CK1
  r1cs_shape_primary : R1CSShape τ.SH1
  ro_consts_secondary : τ.RC2
  ro_consts_circuit_secondary : τ.RCC1
  ck_secondary : τ.CK2
  r1cs_shape_secondary : R1CSShape τ.SH2
  augmented_circuit_params_primary : NovaAugmentedCircuitParams
  augmented_circuit_params_secondary : NovaAugmentedCircuitParams

/-- Public parameters with the digest cache populated (setup computes the
digest eagerly, so every PublicParams value reaching the RecursiveSNARK
methods carries its digest). -/
structure PublicParams (τ : Ty) extends PublicParamsCore τ where
  digest : τ.F1

/-- The IVC state of the recursive SNARK, field for field as in lib.rs. -/
structure RecursiveSNARK (τ : Ty) where
  z0_primary : List τ.F1
  z0_secondary : List τ.F2
  r_W_primary : τ.RW1
  r_U_primary : RelaxedR1CSInstance τ.G1 τ.F1
  ri_primary : τ.F1
  r_W_secondary : τ.RW2
  r_U_secondary : RelaxedR1CSInstance τ.G2 τ.F2
  ri_secondary : τ.F2
  l_w_secondary : τ.W2
  l_u_secondary : R1CSInstance τ.G2 τ.F2
  i : Nat
  zi_primary : List τ.F1
  zi_secondary : List τ.F2

/-- Inputs handed to the primary augmented circuit (the Rust type
NovaAugmentedCircuitInputs instantiated at the secondary engine). -/
structure NovaAugmentedCircuitInputsP (τ : Ty) where
  params : τ.F2
  i : τ.F1
  z0 : List τ.F1
  zi : Option (List τ.F1)
  U : Option (RelaxedR1CSInstance τ.G2 τ.F2)
  ri : Option τ.F1
  r_next : τ.F1
  u : Option (R1CSInstance τ.G2 τ.F2)
  comm_T : Option τ.G2

/-- Inputs handed to the secondary augmented circuit (the Rust type
NovaAugmentedCircuitInputs instantiated at the primary engine). -/
structure NovaAugmentedCircuitInputsS (τ : Ty) where
  params : τ.F1
  i : τ.F2
  z0 : List τ.F2
  zi : Option (List τ.F2)
  U : Option (RelaxedR1CSInstance τ.G1 τ.F1)
  ri : Option τ.F2
  r_next : τ.F2
  u : Option (R1CSInstance τ.G1 τ.F1)
  comm_T : Option τ.G1

/-- One element absorbed by the random oracle of the secondary engine: either
a scalar of F1 (the base field of E2) or a relaxed instance over E2 absorbed
through absorb_in_ro. -/
inductive ROInput2 (τ : Ty) where
  | scalar : τ.F1 → ROInput2 τ
  | relaxed : RelaxedR1CSInstance τ.G2 τ.F2 → ROInput2 τ

/-- One element absorbed by the random oracle of the primary engine. -/
inductive ROInput1 (τ : Ty) where
  | scalar : τ.F2 → ROInput1 τ
  | relaxed : RelaxedR1CSInstance τ.G1 τ.F1 → ROInput1 τ

/-- The external collaborators of lib.rs, modelled from the spec (sections
4.1 to 4.4 and 6): random oracles, field conversions, the ChaCha20 draws, the
augmented-circuit synthesis, the NIFS provers and verifiers, the relaxed R1CS
algebra and the leaf SNARK verifiers.  Functions receive the whole
PublicParams value in place of the individual keys, shapes and constants the
Rust code passes, which are all components of it. -/
structure Env (τ : Ty) where
  chacha_f1 : Nat → τ.F1
  chacha_f2 : Nat → τ.F2
  of_nat_f1 : Nat → τ.F1
  of_nat_f2 : Nat → τ.F2
  zero_f1 : τ.F1
  zero_f2 : τ.F2
  scalar_as_base_1 : τ.F1 → τ.F2
  scalar_as_base_2 : τ.F2 → τ.F1
  ro1 : τ.RC1 → Nat → List (ROInput1 τ) → Nat → τ.F1
  ro2 : τ.RC2 → Nat → List (ROInput2 τ) → Nat → τ.F2
  arity_p : τ.CP → Nat
  arity_s : τ.CS → Nat
  default_ro_consts_1 : τ.RC1
  default_ro_consts_2 : τ.RC2
  default_ro_consts_circuit_1 : τ.RCC1
  default_ro_consts_circuit_2 : τ.RCC2
  r1cs_shape_p : τ.CP → τ.Hint1 → R1CSShape τ.SH1 × τ.CK1
  r1cs_shape_s : τ.CS → τ.Hint2 → R1CSShape τ.SH2 × τ.CK2
  digest_of : PublicParamsCore τ → τ.F1
  synthesize_p : τ.CP → NovaAugmentedCircuitInputsP τ → PublicParams τ →
    Except NovaError (List (Option τ.F1) × R1CSInstance τ.G1 τ.F1 × τ.W1)
  synthesize_s : τ.CS → NovaAugmentedCircuitInputsS τ → PublicParams τ →
    Except NovaError (List (Option τ.F2) × R1CSInstance τ.G2 τ.F2 × τ.W2)
  from_r1cs_witness_1 : PublicParams τ → τ.W1 → τ.RW1
  from_r1cs_instance_1 : PublicParams τ → R1CSInstance τ.G1 τ.F1 → RelaxedR1CSInstance τ.G1 τ.F1
  default_relaxed_W2 : PublicParams τ → τ.RW2
  default_relaxed_U2 : PublicParams τ → RelaxedR1CSInstance τ.G2 τ.F2
  nifs_prove_1 : PublicParams τ → τ.F1 → RelaxedR1CSInstance τ.G1 τ.F1 → τ.RW1 →
    R1CSInstance τ.G1 τ.F1 → τ.W1 →
    Except NovaError (NIFS τ.G1 × (RelaxedR1CSInstance τ.G1 τ.F1 × τ.RW1))
  nifs_prove_2 : PublicParams τ → τ.F2 → RelaxedR1CSInstance τ.G2 τ.F2 → τ.RW2 →
    R1CSInstance τ.G2 τ.F2 → τ.W2 →
    Except NovaError (NIFS τ.G2 × (RelaxedR1CSInstance τ.G2 τ.F2 × τ.RW2))
  fold_verify_1 : PublicParams τ → τ.F1 → RelaxedR1CSInstance τ.G1 τ.F1 →
    R1CSInstance τ.G1 τ.F1 → τ.G1 → RelaxedR1CSInstance τ.G1 τ.F1
  fold_verify_2 : PublicParams τ → τ.F2 → RelaxedR1CSInstance τ.G2 τ.F2 →
    R1CSInstance τ.G2 τ.F2 → τ.G2 → RelaxedR1CSInstance τ.G2 τ.F2
  is_sat_1 : PublicParams τ → R1CSInstance τ.G1 τ.F1 → τ.W1 → Except NovaError Unit
  is_sat_2 : PublicParams τ → R1CSInstance τ.G2 τ.F2 → τ.W2 → Except NovaError Unit
  is_sat_relaxed_1 : PublicParams τ → RelaxedR1CSInstance τ.G1 τ.F1 → τ.RW1 → Except NovaError Unit
  is_sat_relaxed_2 : PublicParams τ → RelaxedR1CSInstance τ.G2 τ.F2 → τ.RW2 → Except NovaError Unit
  nifs_verify_std_2 : τ.RC2 → τ.F2 → NIFS τ.G2 → RelaxedR1CSInstance τ.G2 τ.F2 →
    R1CSInstance τ.G2 τ.F2 → Except NovaError (RelaxedR1CSInstance τ.G2 τ.F2)
  nifs_verify_relaxed_2 : τ.RC2 → τ.F2 → NIFS τ.G2 → RelaxedR1CSInstance τ.G2 τ.F2 →
    RelaxedR1CSInstance τ.G2 τ.F2 → Except NovaError (RelaxedR1CSInstance τ.G2 τ.F2)
  nifs_verify_relaxed_1 : τ.RC1 → τ.F1 → NIFS τ.G1 → RelaxedR1CSInstance τ.G1 τ.F1 →
    RelaxedR1CSInstance τ.G1 τ.F1 → Except NovaError (RelaxedR1CSInstance τ.G1 τ.F1)
  derandomize_inst_1 : τ.DK1 → τ.F1 → τ.F1 → RelaxedR1CSInstance τ.G1 τ.F1 →
    RelaxedR1CSInstance τ.G1 τ.F1
  derandomize_inst_2 : τ.DK2 → τ.F2 → τ.F2 → RelaxedR1CSInstance τ.G2 τ.F2 →
    RelaxedR1CSInstance τ.G2 τ.F2
  snark_verify_1 : τ.VK1 → τ.S1 → RelaxedR1CSInstance τ.G1 τ.F1 → Except NovaError Unit
  snark_verify_2 : τ.VK2 → τ.S2 → RelaxedR1CSInstance τ.G2 τ.F2 → Except NovaError Unit

variable {τ : Ty}

/-- The absorb schedule of the primary-side transcript hash in
RecursiveSNARK::verify: pp digest, the step count, z0_primary element-wise,
zi_primary element-wise, the secondary running instance, ri_primary. -/
def absorbPrimarySide (env : Env τ) (pp : PublicParams τ) (n : Nat)
    (z0 zi : List τ.F1) (U : RelaxedR1CSInstance τ.G2 τ.F2) (r : τ.F1) :
    List (ROInput2 τ) :=
  [ROInput2.scalar pp.digest, ROInput2.scalar (env.of_nat_f1 n)] ++
    z0.map ROInput2.scalar ++ zi.map ROInput2.scalar ++
    [ROInput2.relaxed U, ROInput2.scalar r]

/-- The absorb schedule of the secondary-side transcript hash in
RecursiveSNARK::verify. -/
def absorbSecondarySide (env : Env τ) (pp : PublicParams τ) (n : Nat)
    (z0 zi : List τ.F2) (U : RelaxedR1CSInstance τ.G1 τ.F1) (r : τ.F2) :
    List (ROInput1 τ) :=
  [ROInput1.scalar (env.scalar_as_base_1 pp.digest), ROInput1.scalar (env.of_nat_f2 n)] ++
    z0.map ROInput1.scalar ++ zi.map ROInput1.scalar ++
    [ROInput1.relaxed U, ROInput1.scalar r]

/-- The hash the verifier recomputes on the primary side: a random oracle of
the secondary engine, initialized for NUM_FE_WITHOUT_IO_FOR_CRHF plus twice
the primary arity absorbed elements and squeezed to NUM_HASH_BITS bits. -/
def hashPrimary (env : Env τ) (pp : PublicParams τ) (n : Nat)
    (z0 zi : List τ.F1) (U : RelaxedR1CSInstance τ.G2 τ.F2) (r : τ.F1) : τ.F2 :=
  env.ro2 pp.ro_consts_secondary (NUM_FE_WITHOUT_IO_FOR_CRHF + 2 * pp.F_arity_primary)
    (absorbPrimarySide env pp n z0 zi U r) NUM_HASH_BITS

/-- The hash the verifier recomputes on the secondary side. -/
def hashSecondary (env : Env τ) (pp : PublicParams τ) (n : Nat)
    (z0 zi : List τ.F2) (U : RelaxedR1CSInstance τ.G1 τ.F1) (r : τ.F2) : τ.F1 :=
  env.ro1 pp.ro_consts_primary (NUM_FE_WITHOUT_IO_FOR_CRHF + 2 * pp.F_arity_secondary)
    (absorbSecondarySide env pp n z0 zi U r) NUM_HASH_BITS

/-- Extracting the values of a vector of allocated variables, as the
iter-map-collect over get_value does in lib.rs: the first missing value
aborts with the AssignmentMissing error. -/
def collectValues {α : Type} : List (Option α) → Except NovaError (List α)
  | [] => Except.ok []
  | none :: _ => Except.error NovaError.assignmentMissing
  | some a :: rest => (collectValues rest).map (fun l => a :: l)

/-- PublicParams::setup: fix the augmented-circuit parameters, synthesize both
augmented circuits to obtain shapes and commitment keys, reject if either
shape has a number of public IO different from 2, then assemble the public
parameters and compute the digest eagerly. -/
def PublicParams.setup (env : Env τ) (c_primary : τ.CP) (c_secondary : τ.CS)
    (ck_hint1 : τ.Hint1) (ck_hint2 : τ.Hint2) : Except NovaError (PublicParams τ) :=
  let augmented_circuit_params_primary : NovaAugmentedCircuitParams :=
    ⟨BN_LIMB_WIDTH, BN_N_LIMBS, true⟩
  let augmented_circuit_params_secondary : NovaAugmentedCircuitParams :=
    ⟨BN_LIMB_WIDTH, BN_N_LIMBS, false⟩
  let F_arity_primary := env.arity_p c_primary
  let F_arity_secondary := env.arity_s c_secondary
  let sp := env.r1cs_shape_p c_primary ck_hint1
  let ss := env.r1cs_shape_s c_secondary ck_hint2
  if sp.1.numIo ≠ 2 ∨ ss.1.numIo ≠ 2 then
    Except.error NovaError.invalidStepCircuitIo
  else
    let core : PublicParamsCore τ :=
      { F_arity_primary := F_arity_primary
        F_arity_secondary := F_arity_secondary
        ro_consts_primary := env.default_ro_consts_1
        ro_consts_circuit_primary := env.default_ro_consts_circuit_2
        ck_primary := sp.2
        r1cs_shape_primary := sp.1
        ro_consts_secondary := env.default_ro_consts_2
        ro_consts_circuit_secondary := env.default_ro_consts_circuit_1
        ck_secondary := ss.2
        r1cs_shape_secondary := ss.1
        augmented_circuit_params_primary := augmented_circuit_params_primary
        augmented_circuit_params_secondary := augmented_circuit_params_secondary }
    Except.ok { toPublicParamsCore := core, digest := env.digest_of core }

/-- RecursiveSNARK::new: validate the initial input lengths, draw ri_primary
and ri_secondary from the ChaCha20 PRNG seeded with the fixed constant,
synthesize both augmented circuits in base-case mode, promote the primary
pair to a relaxed pair, install the zero relaxed pair on the secondary side,
check the step output lengths (an assertion in the source) and extract the
step output values. -/
def RecursiveSNARK.new (env : Env τ) (pp : PublicParams τ)
    (c_primary : τ.CP) (c_secondary : τ.CS)
    (z0_primary : List τ.F1) (z0_secondary : List τ.F2) :
    Except NovaError (RecursiveSNARK τ) :=
  if z0_primary.length ≠ pp.F_arity_primary ∨ z0_secondary.length ≠ pp.F_arity_secondary then
    Except.error NovaError.invalidInitialInputLength
  else
    let ri_primary := env.chacha_f1 NOVA_RNG_SEED
    let ri_secondary := env.chacha_f2 NOVA_RNG_SEED
    match env.synthesize_p c_primary
      ⟨env.scalar_as_base_1 pp.digest, env.zero_f1, z0_primary,
        none, none, none, ri_primary, none, none⟩ pp with
    | Except.error e => Except.error e
    | Except.ok (zi_p_vars, u_primary, w_primary) =>
      match env.synthesize_s c_secondary
        ⟨pp.digest, env.zero_f2, z0_secondary,
          none, none, none, ri_secondary, some u_primary, none⟩ pp with
      | Except.error e => Except.error e
      | Except.ok (zi_s_vars, u_secondary, w_secondary) =>
        let r_W_primary := env.from_r1cs_witness_1 pp w_primary
        let r_U_primary := env.from_r1cs_instance_1 pp u_primary
        let r_W_secondary := env.default_relaxed_W2 pp
        let r_U_secondary := env.default_relaxed_U2 pp
        if zi_p_vars.length ≠ pp.F_arity_primary ∨ zi_s_vars.length ≠ pp.F_arity_secondary then
          Except.error NovaError.otherError
        else
          match collectValues zi_p_vars with
          | Except.error e => Except.error e
          | Except.ok zi_primary =>
            match collectValues zi_s_vars with
            | Except.error e => Except.error e
            | Except.ok zi_secondary =>
              Except.ok
                { z0_primary := z0_primary
                  z0_secondary := z0_secondary
                  r_W_primary := r_W_primary
                  r_U_primary := r_U_primary
                  ri_primary := ri_primary
                  r_W_secondary := r_W_secondary
                  r_U_secondary := r_U_secondary
                  ri_secondary := ri_secondary
                  l_w_secondary := w_secondary
                  l_u_secondary := u_secondary
                  i := 0
                  zi_primary := zi_primary
                  zi_secondary := zi_secondary }

/-- RecursiveSNARK::prove_step, as a function from the pre-state to the pair
of the returned result and the post-state (the Rust method mutates self in
place, so an early error return leaves behind exactly the mutations performed
so far).  If i is 0 it only sets i to 1; otherwise it folds the pending
secondary pair, synthesizes the primary circuit in inductive mode, folds the
primary pair, synthesizes the secondary circuit in inductive mode, extracts
both step outputs and overwrites the state fields. -/
def RecursiveSNARK.prove_step (env : Env τ) (pp : PublicParams τ)
    (c_primary : τ.CP) (c_secondary : τ.CS) (self : RecursiveSNARK τ) :
    Except NovaError Unit × RecursiveSNARK τ :=
  if self.i = 0 then
    (Except.ok (), { self with i := 1 })
  else
    match env.nifs_prove_2 pp (env.scalar_as_base_1 pp.digest)
      self.r_U_secondary self.r_W_secondary self.l_u_secondary self.l_w_secondary with
    | Except.error e => (Except.error e, self)
    | Except.ok (nifs_secondary, r_U_secondary, r_W_secondary) =>
      let r_next_primary := env.chacha_f1 NOVA_RNG_SEED
      match env.synthesize_p c_primary
        ⟨env.scalar_as_base_1 pp.digest, env.of_nat_f1 self.i, self.z0_primary,
          some self.zi_primary, some self.r_U_secondary, some self.ri_primary,
          r_next_primary, some self.l_u_secondary, some nifs_secondary.comm_T⟩ pp with
      | Except.error e => (Except.error e, self)
      | Except.ok (zi_p_vars, l_u_primary, l_w_primary) =>
        match env.nifs_prove_1 pp pp.digest
          self.r_U_primary self.r_W_primary l_u_primary l_w_primary with
        | Except.error e => (Except.error e, self)
        | Except.ok (nifs_primary, r_U_primary, r_W_primary) =>
          let r_next_secondary := env.chacha_f2 NOVA_RNG_SEED
          match env.synthesize_s c_secondary
            ⟨pp.digest, env.of_nat_f2 self.i, self.z0_secondary,
              some self.zi_secondary, some self.r_U_primary, some self.ri_secondary,
              r_next_secondary, some l_u_primary, some nifs_primary.comm_T⟩ pp with
          | Except.error e => (Except.error e, self)
          | Except.ok (zi_s_vars, l_u_secondary, l_w_secondary) =>
            match collectValues zi_p_vars with
            | Except.error e => (Except.error e, self)
            | Except.ok zi_primary =>
              match collectValues zi_s_vars with
              | Except.error e => (Except.error e, { self with zi_primary := zi_primary })
              | Except.ok zi_secondary =>
                (Except.ok (),
                  { self with
                    zi_primary := zi_primary
                    zi_secondary := zi_secondary
                    l_u_secondary := l_u_secondary
                    l_w_secondary := l_w_secondary
                    r_U_primary := r_U_primary
                    r_W_primary := r_W_primary
                    i := self.i + 1
                    r_U_secondary := r_U_secondary
                    r_W_secondary := r_W_secondary
                    ri_primary := r_next_primary
                    ri_secondary := r_next_secondary })

/-- The tail of RecursiveSNARK::verify: the three satisfiability checks, whose
results are then propagated in order, followed by the successful return of the
stored step outputs. -/
def satChecks (env : Env τ) (pp : PublicParams τ) (self : RecursiveSNARK τ) :
    Except NovaError (List τ.F1 × List τ.F2) :=
  match env.is_sat_relaxed_1 pp self.r_U_primary self.r_W_primary with
  | Except.error e => Except.error e
  | Except.ok _ =>
    match env.is_sat_relaxed_2 pp self.r_U_secondary self.r_W_secondary with
    | Except.error e => Except.error e
    | Except.ok _ =>
      match env.is_sat_2 pp self.l_u_secondary self.l_w_secondary with
      | Except.error e => Except.error e
      | Except.ok _ => Except.ok (self.zi_primary, self.zi_secondary)

/-- RecursiveSNARK::verify: reject if the step count is zero or differs from
the counter, if the initial inputs differ from the stored ones or if any of
the three tracked instances does not have exactly two public IO values; then
recompute the two transcript hashes and reject unless they match the public
IO of the pending secondary instance; finally run the three satisfiability
checks. -/
def RecursiveSNARK.verify (env : Env τ) (pp : PublicParams τ)
    (self : RecursiveSNARK τ) (num_steps : Nat)
    (z0_primary : List τ.F1) (z0_secondary : List τ.F2) :
    Except NovaError (List τ.F1 × List τ.F2) :=
  letI : DecidableEq τ.F1 := τ.deqF1
  letI : DecidableEq τ.F2 := τ.deqF2
  if num_steps = 0 ∨ self.i ≠ num_steps ∨
      self.z0_primary ≠ z0_primary ∨ self.z0_secondary ≠ z0_secondary ∨
      self.l_u_secondary.X.length ≠ 2 ∨ self.r_U_primary.X.length ≠ 2 ∨
      self.r_U_secondary.X.length ≠ 2 then
    Except.error NovaError.proofVerifyError
  else
    let hash_primary := hashPrimary env pp num_steps z0_primary
      self.zi_primary self.r_U_secondary self.ri_primary
    let hash_secondary := hashSecondary env pp num_steps z0_secondary
      self.zi_secondary self.r_U_primary self.ri_secondary
    if hash_primary ≠ self.l_u_secondary.X.getD 0 env.zero_f2 ∨
        hash_secondary ≠ env.scalar_as_base_2 (self.l_u_secondary.X.getD 1 env.zero_f2) then
      Except.error NovaError.proofVerifyError
    else
      satChecks env pp self

/-- Iterating prove_step: N successful calls in sequence, propagating the
first error. -/
def prove_steps (env : Env τ) (pp : PublicParams τ)
    (c_primary : τ.CP) (c_secondary : τ.CS) :
    Nat → RecursiveSNARK τ → Except NovaError (RecursiveSNARK τ)
  | 0, s => Except.ok s
  | n + 1, s =>
    match RecursiveSNARK.prove_step env pp c_primary c_secondary s with
    | (Except.ok _, s1) => prove_steps env pp c_primary c_secondary n s1
    | (Except.error e, _) => Except.error e

/-- The verifier key of the compressed SNARK. -/
structure VerifierKey (τ : Ty) where
  F_arity_primary : Nat
  F_arity_secondary : Nat
  ro_consts_primary : τ.RC1
  ro_consts_secondary : τ.RC2
  pp_digest : τ.F1
  vk_primary : τ.VK1
  vk_secondary : τ.VK2
  dk_primary : τ.DK1
  dk_secondary : τ.DK2

/-- The compressed SNARK, field for field as in lib.rs.  The fully relaxed
NIFS messages are modelled by the same one-commitment record. -/
structure CompressedSNARK (τ : Ty) where
  r_U_secondary : RelaxedR1CSInstance τ.G2 τ.F2
  ri_secondary : τ.F2
  l_u_secondary : R1CSInstance τ.G2 τ.F2
  nifs_Uf_secondary : NIFS τ.G2
  l_ur_secondary : RelaxedR1CSInstance τ.G2 τ.F2
  nifs_Un_secondary : NIFS τ.G2
  r_U_primary : RelaxedR1CSInstance τ.G1 τ.F1
  ri_primary : τ.F1
  l_ur_primary : RelaxedR1CSInstance τ.G1 τ.F1
  nifs_Un_primary : NIFS τ.G1
  wit_blind_r_Wn_primary : τ.F1
  err_blind_r_Wn_primary : τ.F1
  wit_blind_r_Wn_secondary : τ.F2
  err_blind_r_Wn_secondary : τ.F2
  snark_primary : τ.S1
  snark_secondary : τ.S2
  zn_primary : List τ.F1
  zn_secondary : List τ.F2

/-- CompressedSNARK::verify: the zero-step and IO-length prologue, the two
transcript hash checks against the verifier key, the three NIFS verifier
replays, derandomization and the two leaf SNARK verifications. -/
def CompressedSNARK.verify (env : Env τ) (vk : VerifierKey τ)
    (self : CompressedSNARK τ) (num_steps : Nat)
    (z0_primary : List τ.F1) (z0_secondary : List τ.F2) :
    Except NovaError (List τ.F1 × List τ.F2) :=
  letI : DecidableEq τ.F1 := τ.deqF1
  letI : DecidableEq τ.F2 := τ.deqF2
  if num_steps = 0 then
    Except.error NovaError.proofVerifyError
  else if self.l_u_secondary.X.length ≠ 2 ∨ self.r_U_primary.X.length ≠ 2 ∨
      self.r_U_secondary.X.length ≠ 2 ∨ self.l_ur_primary.X.length ≠ 2 ∨
      self.l_ur_secondary.X.length ≠ 2 then
    Except.error NovaError.proofVerifyError
  else
    let hash_primary := env.ro2 vk.ro_consts_secondary
      (NUM_FE_WITHOUT_IO_FOR_CRHF + 2 * vk.F_arity_primary)
      ([ROInput2.scalar vk.pp_digest, ROInput2.scalar (env.of_nat_f1 num_steps)] ++
        z0_primary.map ROInput2.scalar ++ self.zn_primary.map ROInput2.scalar ++
        [ROInput2.relaxed self.r_U_secondary, ROInput2.scalar self.ri_primary])
      NUM_HASH_BITS
    let hash_secondary := env.ro1 vk.ro_consts_primary
      (NUM_FE_WITHOUT_IO_FOR_CRHF + 2 * vk.F_arity_secondary)
      ([ROInput1.scalar (env.scalar_as_base_1 vk.pp_digest),
          ROInput1.scalar (env.of_nat_f2 num_steps)] ++
        z0_secondary.map ROInput1.scalar ++ self.zn_secondary.map ROInput1.scalar ++
        [ROInput1.relaxed self.r_U_primary, ROInput1.scalar self.ri_secondary])
      NUM_HASH_BITS
    if hash_primary ≠ self.l_u_secondary.X.getD 0 env.zero_f2 ∨
        hash_secondary ≠ env.scalar_as_base_2 (self.l_u_secondary.X.getD 1 env.zero_f2) then
      Except.error NovaError.proofVerifyError
    else
      match env.nifs_verify_std_2 vk.ro_consts_secondary (env.scalar_as_base_1 vk.pp_digest)
        self.nifs_Uf_secondary self.r_U_secondary self.l_u_secondary with
      | Except.error e => Except.error e
      | Except.ok r_Uf_secondary =>
        match env.nifs_verify_relaxed_2 vk.ro_consts_secondary
          (env.scalar_as_base_1 vk.pp_digest)
          self.nifs_Un_secondary r_Uf_secondary self.l_ur_secondary with
        | Except.error e => Except.error e
        | Except.ok r_Un_secondary =>
          match env.nifs_verify_relaxed_1 vk.ro_consts_primary vk.pp_digest
            self.nifs_Un_primary self.r_U_primary self.l_ur_primary with
          | Except.error e => Except.error e
          | Except.ok r_Un_primary =>
            let derandom_r_Un_primary := env.derandomize_inst_1 vk.dk_primary
              self.wit_blind_r_Wn_primary self.err_blind_r_Wn_primary r_Un_primary
            let derandom_r_Un_secondary := env.derandomize_inst_2 vk.dk_secondary
              self.wit_blind_r_Wn_secondary self.err_blind_r_Wn_secondary r_Un_secondary
            match env.snark_verify_1 vk.vk_primary self.snark_primary derandom_r_Un_primary with
            | Except.error e => Except.error e
            | Except.ok _ =>
              match env.snark_verify_2 vk.vk_secondary self.snark_secondary
                derandom_r_Un_secondary with
              | Except.error e => Except.error e
              | Except.ok _ => Except.ok (self.zn_primary, self.zn_secondary)

/-- An allocated variable of the constraint frontend: only its optional value
is observable by the code under src/. -/
structure AllocatedNum (F : Type) where
  value : Option F

/-- The exported GenericCircuit of src/src/traits/circuit.rs: it stores an
arity and a fixed list of allocated values. -/
structure GenericCircuit (F : Type) where
  arity_value : Nat
  synthesize_value : List (AllocatedNum F)

/-- GenericCircuit::new. -/
def GenericCircuit.new {F : Type} (arity_value : Nat)
    (synthesize_value : List (AllocatedNum F)) : GenericCircuit F :=
  ⟨arity_value, synthesize_value⟩

/-- GenericCircuit::arity returns the stored arity value. -/
def GenericCircuit.arity {F : Type} (c : GenericCircuit F) : Nat :=
  c.arity_value

/-- GenericCircuit::synthesize ignores the constraint system and the input
variables and returns the stored list unchanged. -/
def GenericCircuit.synthesize {F CSy : Type} (c : GenericCircuit F)
    (cs : CSy) (z : List (AllocatedNum F)) :
    Except NovaError (List (AllocatedNum F)) :=
  Except.ok c.synthesize_value


/-- The step invariant of the IVC state machine (spec section 3): the three
tracked instances have two public IO values, the public IO of the pending
secondary instance carries the two transcript hashes of the current step, and
the two running relaxed pairs and the pending pair are satisfying. -/
def Inv (env : Env τ) (pp : PublicParams τ) (n : Nat) (s : RecursiveSNARK τ) : Prop :=
  s.l_u_secondary.X.length = 2 ∧
  s.r_U_primary.X.length = 2 ∧
  s.r_U_secondary.X.length = 2 ∧
  s.l_u_secondary.X.getD 0 env.zero_f2 =
    hashPrimary env pp n s.z0_primary s.zi_primary s.r_U_secondary s.ri_primary ∧
  env.scalar_as_base_2 (s.l_u_secondary.X.getD 1 env.zero_f2) =
    hashSecondary env pp n s.z0_secondary s.zi_secondary s.r_U_primary s.ri_secondary ∧
  env.is_sat_relaxed_1 pp s.r_U_primary s.r_W_primary = Except.ok () ∧
  env.is_sat_relaxed_2 pp s.r_U_secondary s.r_W_secondary = Except.ok () ∧
  env.is_sat_2 pp s.l_u_secondary s.l_w_secondary = Except.ok ()

/-- The properties the specification ascribes to the external collaborators
(spec sections 3, 4.1, 4.2 and 4.4): the default relaxed pair is satisfying
and has two public IO values; promoting a satisfying non-relaxed pair keeps
it satisfying and preserves the IO; the NIFS prover returns the same folded
instance the verifier-side fold recomputes and preserves satisfiability;
folding preserves the IO length; and the augmented circuits produce
satisfying instances with two public IO values, assigned step outputs, an
IO value 0 carrying the counterpart hash and an IO value 1 holding the
outbound transcript hash of the step. -/
structure Contracts (env : Env τ) (pp : PublicParams τ)
    (c_primary : τ.CP) (c_secondary : τ.CS) : Prop where
  default_U2_len : (env.default_relaxed_U2 pp).X.length = 2
  default_2_sat :
    env.is_sat_relaxed_2 pp (env.default_relaxed_U2 pp) (env.default_relaxed_W2 pp) =
      Except.ok ()
  from_r1cs_1_X : ∀ u, (env.from_r1cs_instance_1 pp u).X = u.X
  from_r1cs_1_sat : ∀ u w, env.is_sat_1 pp u w = Except.ok () →
    env.is_sat_relaxed_1 pp (env.from_r1cs_instance_1 pp u) (env.from_r1cs_witness_1 pp w) =
      Except.ok ()
  nifs_1_fold : ∀ t U W u w out, env.nifs_prove_1 pp t U W u w = Except.ok out →
    out.2.1 = env.fold_verify_1 pp t U u out.1.comm_T
  nifs_1_sat : ∀ t U W u w out, env.nifs_prove_1 pp t U W u w = Except.ok out →
    env.is_sat_relaxed_1 pp U W = Except.ok () → env.is_sat_1 pp u w = Except.ok () →
    env.is_sat_relaxed_1 pp out.2.1 out.2.2 = Except.ok ()
  nifs_2_fold : ∀ t U W u w out, env.nifs_prove_2 pp t U W u w = Except.ok out →
    out.2.1 = env.fold_verify_2 pp t U u out.1.comm_T
  nifs_2_sat : ∀ t U W u w out, env.nifs_prove_2 pp t U W u w = Except.ok out →
    env.is_sat_relaxed_2 pp U W = Except.ok () → env.is_sat_2 pp u w = Except.ok () →
    env.is_sat_relaxed_2 pp out.2.1 out.2.2 = Except.ok ()
  fold_1_len : ∀ t U u T, U.X.length = 2 → u.X.length = 2 →
    (env.fold_verify_1 pp t U u T).X.length = 2
  fold_2_len : ∀ t U u T, U.X.length = 2 → u.X.length = 2 →
    (env.fold_verify_2 pp t U u T).X.length = 2
  synth_p_base : ∀ z0 r out,
    env.synthesize_p c_primary
      ⟨env.scalar_as_base_1 pp.digest, env.zero_f1, z0, none, none, none, r, none, none⟩ pp =
      Except.ok out →
    ∃ zi, collectValues out.1 = Except.ok zi ∧
      out.2.1.X.length = 2 ∧
      env.scalar_as_base_1 (out.2.1.X.getD 1 env.zero_f1) =
        hashPrimary env pp 1 z0 zi (env.default_relaxed_U2 pp) r ∧
      env.is_sat_1 pp out.2.1 out.2.2 = Except.ok ()
  synth_s_base : ∀ z0 r uP out,
    env.synthesize_s c_secondary
      ⟨pp.digest, env.zero_f2, z0, none, none, none, r, some uP, none⟩ pp = Except.ok out →
    ∃ zi, collectValues out.1 = Except.ok zi ∧
      out.2.1.X.length = 2 ∧
      out.2.1.X.getD 0 env.zero_f2 = env.scalar_as_base_1 (uP.X.getD 1 env.zero_f1) ∧
      env.scalar_as_base_2 (out.2.1.X.getD 1 env.zero_f2) =
        hashSecondary env pp 1 z0 zi (env.from_r1cs_instance_1 pp uP) r ∧
      env.is_sat_2 pp out.2.1 out.2.2 = Except.ok ()
  synth_p_ind : ∀ n z0 zi U r rn lu cT out,
    env.synthesize_p c_primary
      ⟨env.scalar_as_base_1 pp.digest, env.of_nat_f1 n, z0, some zi, some U, some r, rn,
        some lu, some cT⟩ pp = Except.ok out →
    ∃ zi1, collectValues out.1 = Except.ok zi1 ∧
      out.2.1.X.length = 2 ∧
      env.scalar_as_base_1 (out.2.1.X.getD 1 env.zero_f1) =
        hashPrimary env pp (n + 1) z0 zi1
          (env.fold_verify_2 pp (env.scalar_as_base_1 pp.digest) U lu cT) rn ∧
      env.is_sat_1 pp out.2.1 out.2.2 = Except.ok ()
  synth_s_ind : ∀ n z0 zi U r rn lu cT out,
    env.synthesize_s c_secondary
      ⟨pp.digest, env.of_nat_f2 n, z0, some zi, some U, some r, rn, some lu, some cT⟩ pp =
      Except.ok out →
    ∃ zi1, collectValues out.1 = Except.ok zi1 ∧
      out.2.1.X.length = 2 ∧
      out.2.1.X.getD 0 env.zero_f2 = env.scalar_as_base_1 (lu.X.getD 1 env.zero_f1) ∧
      env.scalar_as_base_2 (out.2.1.X.getD 1 env.zero_f2) =
        hashSecondary env pp (n + 1) z0 zi1 (env.fold_verify_1 pp pp.digest U lu cT) rn ∧
      env.is_sat_2 pp out.2.1 out.2.2 = Except.ok ()

/-- A concrete engine cycle for evaluating the model: both scalar fields are
the natural numbers and every opaque collaborator type is the unit type. -/
abbrev tyNat : Ty where
  F1 := Nat
  F2 := Nat
  G1 := Unit
  G2 := Unit
  W1 := Unit
  W2 := Unit
  RW1 := Unit
  RW2 := Unit
  RC1 := Unit
  RC2 := Unit
  RCC1 := Unit
  RCC2 := Unit
  CK1 := Unit
  CK2 := Unit
  SH1 := Unit
  SH2 := Unit
  CP := Unit
  CS := Unit
  Hint1 := Unit
  Hint2 := Unit
  VK1 := Unit
  VK2 := Unit
  DK1 := Unit
  DK2 := Unit
  S1 := Unit
  S2 := Unit
  deqF1 := instDecidableEqNat
  deqF2 := instDecidableEqNat

/-- A concrete collaborator environment over tyNat in which every random
oracle output is 0, the field conversions are the identity, synthesis always
succeeds with assigned outputs and matching public IO, and every
satisfiability check passes. -/
def envC : Env tyNat where
  chacha_f1 := fun _ => 0
  chacha_f2 := fun _ => 0
  of_nat_f1 := fun n => n
  of_nat_f2 := fun n => n
  zero_f1 := 0
  zero_f2 := 0
  scalar_as_base_1 := fun x => x
  scalar_as_base_2 := fun x => x
  ro1 := fun _ _ _ _ => 0
  ro2 := fun _ _ _ _ => 0
  arity_p := fun _ => 1
  arity_s := fun _ => 1
  default_ro_consts_1 := ()
  default_ro_consts_2 := ()
  default_ro_consts_circuit_1 := ()
  default_ro_consts_circuit_2 := ()
  r1cs_shape_p := fun _ _ => (⟨2, ()⟩, ())
  r1cs_shape_s := fun _ _ => (⟨2, ()⟩, ())
  digest_of := fun _ => 0
  synthesize_p := fun _ inp _ => Except.ok (inp.z0.map some, ⟨(), [0, 0]⟩, ())
  synthesize_s := fun _ inp _ =>
    Except.ok (inp.z0.map some,
      ⟨(), [(match inp.u with | some u => u.X.getD 1 0 | none => 0), 0]⟩, ())
  from_r1cs_witness_1 := fun _ _ => ()
  from_r1cs_instance_1 := fun _ u => ⟨u.W, (), 1, u.X⟩
  default_relaxed_W2 := fun _ => ()
  default_relaxed_U2 := fun _ => ⟨(), (), 0, [0, 0]⟩
  nifs_prove_1 := fun _ _ _ _ _ _ => Except.ok (⟨()⟩, ⟨(), (), 0, [0, 0]⟩, ())
  nifs_prove_2 := fun _ _ _ _ _ _ => Except.ok (⟨()⟩, ⟨(), (), 0, [0, 0]⟩, ())
  fold_verify_1 := fun _ _ _ _ _ => ⟨(), (), 0, [0, 0]⟩
  fold_verify_2 := fun _ _ _ _ _ => ⟨(), (), 0, [0, 0]⟩
  is_sat_1 := fun _ _ _ => Except.ok ()
  is_sat_2 := fun _ _ _ => Except.ok ()
  is_sat_relaxed_1 := fun _ _ _ => Except.ok ()
  is_sat_relaxed_2 := fun _ _ _ => Except.ok ()
  nifs_verify_std_2 := fun _ _ _ _ _ => Except.ok ⟨(), (), 0, [0, 0]⟩
  nifs_verify_relaxed_2 := fun _ _ _ _ _ => Except.ok ⟨(), (), 0, [0, 0]⟩
  nifs_verify_relaxed_1 := fun _ _ _ _ _ => Except.ok ⟨(), (), 0, [0, 0]⟩
  derandomize_inst_1 := fun _ _ _ U => U
  derandomize_inst_2 := fun _ _ _ U => U
  snark_verify_1 := fun _ _ _ => Except.ok ()
  snark_verify_2 := fun _ _ _ => Except.ok ()

/-- Concrete public parameters over tyNat with arity 1 on both sides. -/
def ppC : PublicParams tyNat where
  F_arity_primary := 1
  F_arity_secondary := 1
  ro_consts_primary := ()
  ro_consts_circuit_primary := ()
  ck_primary := ()
  r1cs_shape_primary := ⟨2, ()⟩
  ro_consts_secondary := ()
  ro_consts_circuit_secondary := ()
  ck_secondary := ()
  r1cs_shape_secondary := ⟨2, ()⟩
  augmented_circuit_params_primary := ⟨BN_LIMB_WIDTH, BN_N_LIMBS, true⟩
  augmented_circuit_params_secondary := ⟨BN_LIMB_WIDTH, BN_N_LIMBS, false⟩
  digest := 0

/-- The state produced by RecursiveSNARK.new over envC and ppC at the initial
inputs [0] and [0]. -/
def s0C : RecursiveSNARK tyNat where
  z0_primary := [0]
  z0_secondary := [0]
  r_W_primary := ()
  r_U_primary := ⟨(), (), 1, [0, 0]⟩
  ri_primary := 0
  r_W_secondary := ()
  r_U_secondary := ⟨(), (), 0, [0, 0]⟩
  ri_secondary := 0
  l_w_secondary := ()
  l_u_secondary := ⟨(), [0, 0]⟩
  i := 0
  zi_primary := [0]
  zi_secondary := [0]

/-- The state after the first prove_step call on s0C. -/
def s1C : RecursiveSNARK tyNat := { s0C with i := 1 }

/-- A pre-state at step counter 1 with a distinguished primary output,
used to exhibit the non-atomic error path of prove_step. -/
def sCex : RecursiveSNARK tyNat := { s0C with i := 1, zi_primary := [99] }

/-- A collaborator environment identical to envC except that the secondary
augmented-circuit synthesis returns a step-output variable without an
assigned value, so that extracting the secondary outputs fails. -/
def envCex : Env tyNat :=
  { envC with
    synthesize_s := fun _ inp _ =>
      Except.ok ([none],
        ⟨(), [(match inp.u with | some u => u.X.getD 1 0 | none => 0), 0]⟩, ()) }

/-- A collaborator environment identical to envC except that synthesizing the
primary augmented circuit yields a shape with three public IO values, as
happens when the user step circuit inputizes an extra public variable. -/
def envC7 : Env tyNat :=
  { envC with r1cs_shape_p := fun _ _ => (⟨3, ()⟩, ()) }


/-- Extraction succeeds on a list of assigned variables and returns the
underlying values. -/
theorem collectValues_map_some {α : Type} (l : List α) :
    collectValues (l.map some) = Except.ok l := by
  induction l with
  | nil => rfl
  | cons a t ih => simp [collectValues, ih, Except.map]

/-- Characterization of a successful prove_step call at a nonzero step
counter: the four collaborator calls it makes, the two extractions, and the
exact post-state assembled from their results. -/
theorem prove_step_ok_spec {τ : Ty} (env : Env τ) (pp : PublicParams τ)
    (c_primary : τ.CP) (c_secondary : τ.CS) (s s1 : RecursiveSNARK τ) (hi : s.i ≠ 0)
    (h : RecursiveSNARK.prove_step env pp c_primary c_secondary s = (Except.ok (), s1)) :
    ∃ nifsS rUs2 rWs2 outP nifsP rUp2 rWp2 outS ziP ziS,
      env.nifs_prove_2 pp (env.scalar_as_base_1 pp.digest) s.r_U_secondary s.r_W_secondary
          s.l_u_secondary s.l_w_secondary = Except.ok (nifsS, rUs2, rWs2) ∧
      env.synthesize_p c_primary
          ⟨env.scalar_as_base_1 pp.digest, env.of_nat_f1 s.i, s.z0_primary,
            some s.zi_primary, some s.r_U_secondary, some s.ri_primary,
            env.chacha_f1 NOVA_RNG_SEED, some s.l_u_secondary, some nifsS.comm_T⟩ pp =
        Except.ok outP ∧
      env.nifs_prove_1 pp pp.digest s.r_U_primary s.r_W_primary outP.2.1 outP.2.2 =
        Except.ok (nifsP, rUp2, rWp2) ∧
      env.synthesize_s c_secondary
          ⟨pp.digest, env.of_nat_f2 s.i, s.z0_secondary, some s.zi_secondary,
            some s.r_U_primary, some s.ri_secondary, env.chacha_f2 NOVA_RNG_SEED,
            some outP.2.1, some nifsP.comm_T⟩ pp = Except.ok outS ∧
      collectValues outP.1 = Except.ok ziP ∧
      collectValues outS.1 = Except.ok ziS ∧
      s1 = { z0_primary := s.z0_primary, z0_secondary := s.z0_secondary,
             r_W_primary := rWp2, r_U_primary := rUp2,
             ri_primary := env.chacha_f1 NOVA_RNG_SEED,
             r_W_secondary := rWs2, r_U_secondary := rUs2,
             ri_secondary := env.chacha_f2 NOVA_RNG_SEED,
             l_w_secondary := outS.2.2, l_u_secondary := outS.2.1,
             i := s.i + 1, zi_primary := ziP, zi_secondary := ziS } := by
  simp only [RecursiveSNARK.prove_step] at h
  rw [if_neg hi] at h
  split at h
  · simp at h
  next nifsS rUs2 rWs2 hE2 =>
    split at h
    · simp at h
    next ziPv luP lwP hEP =>
      split at h
      · simp at h
      next nifsP rUp2 rWp2 hE1 =>
        split at h
        · simp at h
        next ziSv luS lwS hES =>
          split at h
          · simp at h
          next ziP hCP =>
            split at h
            · simp at h
            next ziS hCS =>
              have hs1 := (Prod.mk.injEq _ _ _ _).mp h
              refine ⟨nifsS, rUs2, rWs2, (ziPv, luP, lwP), nifsP, rUp2, rWp2,
                (ziSv, luS, lwS), ziP, ziS, hE2, hEP, hE1, hES, hCP, hCS, hs1.2.symm⟩

/-- Characterization of a successful RecursiveSNARK.new call: the two
base-case synthesis calls, the two extractions, and the exact initial state
assembled from their results. -/
theorem new_ok_spec {τ : Ty} (env : Env τ) (pp : PublicParams τ)
    (c_primary : τ.CP) (c_secondary : τ.CS)
    (z0_primary : List τ.F1) (z0_secondary : List τ.F2) (s0 : RecursiveSNARK τ)
    (h : RecursiveSNARK.new env pp c_primary c_secondary z0_primary z0_secondary =
      Except.ok s0) :
    ∃ outP outS ziP ziS,
      env.synthesize_p c_primary
          ⟨env.scalar_as_base_1 pp.digest, env.zero_f1, z0_primary,
            none, none, none, env.chacha_f1 NOVA_RNG_SEED, none, none⟩ pp =
        Except.ok outP ∧
      env.synthesize_s c_secondary
          ⟨pp.digest, env.zero_f2, z0_secondary,
            none, none, none, env.chacha_f2 NOVA_RNG_SEED, some outP.2.1, none⟩ pp =
        Except.ok outS ∧
      collectValues outP.1 = Except.ok ziP ∧
      collectValues outS.1 = Except.ok ziS ∧
      s0 = { z0_primary := z0_primary, z0_secondary := z0_secondary,
             r_W_primary := env.from_r1cs_witness_1 pp outP.2.2,
             r_U_primary := env.from_r1cs_instance_1 pp outP.2.1,
             ri_primary := env.chacha_f1 NOVA_RNG_SEED,
             r_W_secondary := env.default_relaxed_W2 pp,
             r_U_secondary := env.default_relaxed_U2 pp,
             ri_secondary := env.chacha_f2 NOVA_RNG_SEED,
             l_w_secondary := outS.2.2, l_u_secondary := outS.2.1,
             i := 0, zi_primary := ziP, zi_secondary := ziS } := by
  simp only [RecursiveSNARK.new] at h
  split at h
  · simp at h
  · split at h
    · simp at h
    next ziPv uP wP hP =>
      split at h
      · simp at h
      next ziSv uS wS hS =>
        split at h
        · simp at h
        · split at h
          · simp at h
          next ziP hCP =>
            split at h
            · simp at h
            next ziS hCS =>
              refine ⟨(ziPv, uP, wP), (ziSv, uS, wS), ziP, ziS, hP, hS, hCP, hCS, ?_⟩
              exact (Except.ok.injEq _ _).mp h |>.symm


/-- When the invariant holds at the step count the caller supplies and the
initial inputs match, verify succeeds with the stored step outputs. -/
theorem verify_of_inv {τ : Ty} (env : Env τ) (pp : PublicParams τ) (s : RecursiveSNARK τ)
    (n : Nat) (z0_primary : List τ.F1) (z0_secondary : List τ.F2)
    (hInv : Inv env pp n s) (hi : s.i = n) (hn : n ≠ 0)
    (hzp : s.z0_primary = z0_primary) (hzs : s.z0_secondary = z0_secondary) :
    RecursiveSNARK.verify env pp s n z0_primary z0_secondary =
      Except.ok (s.zi_primary, s.zi_secondary) := by
  obtain ⟨hl1, hl2, hl3, hh1, hh2, hs1, hs2, hs3⟩ := hInv
  have hcond1 : ¬(n = 0 ∨ s.i ≠ n ∨ s.z0_primary ≠ z0_primary ∨
      s.z0_secondary ≠ z0_secondary ∨ s.l_u_secondary.X.length ≠ 2 ∨
      s.r_U_primary.X.length ≠ 2 ∨ s.r_U_secondary.X.length ≠ 2) := by
    simp [hn, hi, hzp, hzs, hl1, hl2, hl3]
  have hcond2 : ¬(hashPrimary env pp n z0_primary s.zi_primary s.r_U_secondary s.ri_primary ≠
        s.l_u_secondary.X.getD 0 env.zero_f2 ∨
      hashSecondary env pp n z0_secondary s.zi_secondary s.r_U_primary s.ri_secondary ≠
        env.scalar_as_base_2 (s.l_u_secondary.X.getD 1 env.zero_f2)) := by
    rw [← hzp, ← hzs]
    push_neg
    exact ⟨hh1.symm, hh2.symm⟩
  simp only [RecursiveSNARK.verify]
  rw [if_neg hcond1, if_neg hcond2]
  simp only [satChecks]
  rw [hs1, hs2, hs3]

/-- After a successful RecursiveSNARK.new call, the artifacts already satisfy
the step-1 invariant while the counter is still 0. -/
theorem inv_after_new {τ : Ty} (env : Env τ) (pp : PublicParams τ)
    (c_primary : τ.CP) (c_secondary : τ.CS)
    (z0_primary : List τ.F1) (z0_secondary : List τ.F2) (s0 : RecursiveSNARK τ)
    (hc : Contracts env pp c_primary c_secondary)
    (h : RecursiveSNARK.new env pp c_primary c_secondary z0_primary z0_secondary =
      Except.ok s0) :
    Inv env pp 1 s0 ∧ s0.i = 0 ∧ s0.z0_primary = z0_primary ∧
      s0.z0_secondary = z0_secondary := by
  obtain ⟨outP, outS, ziP, ziS, hP, hS, hCP, hCS, hs0⟩ :=
    new_ok_spec env pp c_primary c_secondary z0_primary z0_secondary s0 h
  obtain ⟨ziP2, hCP2, hlP, hhP, hsatP⟩ := hc.synth_p_base _ _ _ hP
  obtain ⟨ziS2, hCS2, hlS, hX0, hX1, hsatS⟩ := hc.synth_s_base _ _ _ _ hS
  rw [hCP] at hCP2
  injection hCP2 with e1
  subst e1
  rw [hCS] at hCS2
  injection hCS2 with e2
  subst e2
  subst hs0
  dsimp only
  refine ⟨⟨hlS, ?_, hc.default_U2_len, ?_, ?_, ?_, hc.default_2_sat, hsatS⟩, rfl, rfl, rfl⟩
  · rw [hc.from_r1cs_1_X]
    exact hlP
  · exact hX0.trans hhP
  · exact hX1
  · exact hc.from_r1cs_1_sat _ _ hsatP

/-- One successful prove_step call at a nonzero counter advances the
invariant by one step and leaves the initial inputs unchanged. -/
theorem inv_step {τ : Ty} (env : Env τ) (pp : PublicParams τ)
    (c_primary : τ.CP) (c_secondary : τ.CS) (n : Nat) (s s1 : RecursiveSNARK τ)
    (hc : Contracts env pp c_primary c_secondary)
    (hInv : Inv env pp n s) (hi : s.i = n) (hn : n ≠ 0)
    (h : RecursiveSNARK.prove_step env pp c_primary c_secondary s = (Except.ok (), s1)) :
    Inv env pp (n + 1) s1 ∧ s1.i = n + 1 ∧ s1.z0_primary = s.z0_primary ∧
      s1.z0_secondary = s.z0_secondary := by
  have hi0 : s.i ≠ 0 := by
    rw [hi]
    exact hn
  obtain ⟨nifsS, rUs2, rWs2, outP, nifsP, rUp2, rWp2, outS, ziP, ziS,
    hE2, hP, hE1, hS, hCP, hCS, hs1⟩ :=
    prove_step_ok_spec env pp c_primary c_secondary s s1 hi0 h
  obtain ⟨hl1, hl2, hl3, hh1, hh2, hsat1, hsat2, hsat3⟩ := hInv
  have hfold2 : rUs2 = env.fold_verify_2 pp (env.scalar_as_base_1 pp.digest)
      s.r_U_secondary s.l_u_secondary nifsS.comm_T := hc.nifs_2_fold _ _ _ _ _ _ hE2
  have hsat2n : env.is_sat_relaxed_2 pp rUs2 rWs2 = Except.ok () :=
    hc.nifs_2_sat _ _ _ _ _ _ hE2 hsat2 hsat3
  obtain ⟨ziP2, hCP2, hlP, hhP, hsatP⟩ := hc.synth_p_ind s.i _ _ _ _ _ _ _ _ hP
  rw [hCP] at hCP2
  injection hCP2 with e1
  subst e1
  have hfold1 : rUp2 = env.fold_verify_1 pp pp.digest s.r_U_primary outP.2.1 nifsP.comm_T :=
    hc.nifs_1_fold _ _ _ _ _ _ hE1
  have hsat1n : env.is_sat_relaxed_1 pp rUp2 rWp2 = Except.ok () :=
    hc.nifs_1_sat _ _ _ _ _ _ hE1 hsat1 hsatP
  obtain ⟨ziS2, hCS2, hlS, hX0, hX1, hsatS⟩ := hc.synth_s_ind s.i _ _ _ _ _ _ _ _ hS
  rw [hCS] at hCS2
  injection hCS2 with e2
  subst e2
  subst hs1
  dsimp only
  refine ⟨⟨hlS, ?_, ?_, ?_, ?_, hsat1n, hsat2n, hsatS⟩, ?_, rfl, rfl⟩
  · rw [hfold1]
    exact hc.fold_1_len _ _ _ _ hl2 hlP
  · rw [hfold2]
    exact hc.fold_2_len _ _ _ _ hl3 hl1
  · rw [hX0, hhP, ← hfold2, hi]
  · rw [hX1, ← hfold1, hi]
  · rw [hi]

/-- Iterating prove_step preserves the invariant, advancing it by the number
of successful calls. -/
theorem prove_steps_inv {τ : Ty} (env : Env τ) (pp : PublicParams τ)
    (c_primary : τ.CP) (c_secondary : τ.CS)
    (hc : Contracts env pp c_primary c_secondary) :
    ∀ (k n : Nat) (s s1 : RecursiveSNARK τ), n ≠ 0 → s.i = n → Inv env pp n s →
      prove_steps env pp c_primary c_secondary k s = Except.ok s1 →
      Inv env pp (n + k) s1 ∧ s1.i = n + k ∧ s1.z0_primary = s.z0_primary ∧
        s1.z0_secondary = s.z0_secondary := by
  intro k
  induction k with
  | zero =>
    intro n s s1 hn hi hInv h
    simp only [prove_steps] at h
    injection h with h
    subst h
    exact ⟨hInv, hi, rfl, rfl⟩
  | succ k ih =>
    intro n s s1 hn hi hInv h
    simp only [prove_steps] at h
    split at h
    next _w s2 hps =>
      obtain ⟨hInv2, hi2, hzp2, hzs2⟩ :=
        inv_step env pp c_primary c_secondary n s s2 hc hInv hi hn hps
      obtain ⟨hInv3, hi3, hzp3, hzs3⟩ := ih (n + 1) s2 s1 (Nat.succ_ne_zero n) hi2 hInv2 h
      have harith : n + 1 + k = n + (k + 1) := by omega
      rw [harith] at hInv3 hi3
      exact ⟨hInv3, hi3, hzp3.trans hzp2, hzs3.trans hzs2⟩
    next e s2 hps =>
      simp at h

/-- The concrete environment envC satisfies every collaborator contract over
ppC with the unit step circuits. -/
theorem contracts_envC : Contracts envC ppC () () := by
  constructor
  case default_U2_len => rfl
  case default_2_sat => rfl
  case from_r1cs_1_X => exact fun _ => rfl
  case from_r1cs_1_sat => exact fun _ _ _ => rfl
  case nifs_1_fold =>
    intro t U W u w out h
    have h2 : (Except.ok ((⟨()⟩ : NIFS Unit),
        (⟨(), (), 0, [0, 0]⟩ : RelaxedR1CSInstance Unit Nat), ()) :
        Except NovaError _) = Except.ok out := h
    injection h2 with h2
    subst h2
    rfl
  case nifs_1_sat => exact fun _ _ _ _ _ _ _ _ _ => rfl
  case nifs_2_fold =>
    intro t U W u w out h
    have h2 : (Except.ok ((⟨()⟩ : NIFS Unit),
        (⟨(), (), 0, [0, 0]⟩ : RelaxedR1CSInstance Unit Nat), ()) :
        Except NovaError _) = Except.ok out := h
    injection h2 with h2
    subst h2
    rfl
  case nifs_2_sat => exact fun _ _ _ _ _ _ _ _ _ => rfl
  case fold_1_len => exact fun _ _ _ _ _ _ => rfl
  case fold_2_len => exact fun _ _ _ _ _ _ => rfl
  case synth_p_base =>
    intro z0 r out h
    have h2 : (Except.ok (z0.map some, (⟨(), [0, 0]⟩ : R1CSInstance Unit Nat), ()) :
        Except NovaError _) = Except.ok out := h
    injection h2 with h2
    subst h2
    exact ⟨z0, collectValues_map_some z0, rfl, rfl, rfl⟩
  case synth_s_base =>
    intro z0 r uP out h
    have h2 : (Except.ok (z0.map some,
        (⟨(), [uP.X.getD 1 0, 0]⟩ : R1CSInstance Unit Nat), ()) :
        Except NovaError _) = Except.ok out := h
    injection h2 with h2
    subst h2
    exact ⟨z0, collectValues_map_some z0, rfl, rfl, rfl, rfl⟩
  case synth_p_ind =>
    intro n z0 zi U r rn lu cT out h
    have h2 : (Except.ok (z0.map some, (⟨(), [0, 0]⟩ : R1CSInstance Unit Nat), ()) :
        Except NovaError _) = Except.ok out := h
    injection h2 with h2
    subst h2
    exact ⟨z0, collectValues_map_some z0, rfl, rfl, rfl⟩
  case synth_s_ind =>
    intro n z0 zi U r rn lu cT out h
    have h2 : (Except.ok (z0.map some,
        (⟨(), [lu.X.getD 1 0, 0]⟩ : R1CSInstance Unit Nat), ()) :
        Except NovaError _) = Except.ok out := h
    injection h2 with h2
    subst h2
    exact ⟨z0, collectValues_map_some z0, rfl, rfl, rfl, rfl⟩


/-- C1: for every collaborator environment satisfying the spec contracts,
every pair of step circuits and initial inputs, and every N at least 1: after
RecursiveSNARK::new followed by N successful prove_step calls,
RecursiveSNARK::verify at N and the same initial inputs returns Ok with
exactly the stored latest step outputs zi_primary and zi_secondary. -/
theorem verify_succeeds_after_prove_steps (τ : Ty) (env : Env τ) (pp : PublicParams τ)
    (c_primary : τ.CP) (c_secondary : τ.CS)
    (z0_primary : List τ.F1) (z0_secondary : List τ.F2)
    (N : Nat) (s0 sN : RecursiveSNARK τ)
    (hc : Contracts env pp c_primary c_secondary) (hN : 1 ≤ N)
    (hnew : RecursiveSNARK.new env pp c_primary c_secondary z0_primary z0_secondary =
      Except.ok s0)
    (hsteps : prove_steps env pp c_primary c_secondary N s0 = Except.ok sN) :
    RecursiveSNARK.verify env pp sN N z0_primary z0_secondary =
      Except.ok (sN.zi_primary, sN.zi_secondary) := by
  obtain ⟨hInv0, hi0, hzp0, hzs0⟩ :=
    inv_after_new env pp c_primary c_secondary z0_primary z0_secondary s0 hc hnew
  obtain ⟨m, rfl⟩ : ∃ m, N = m + 1 := ⟨N - 1, by omega⟩
  simp only [prove_steps] at hsteps
  split at hsteps
  next _w s2 hps =>
    have hbase : RecursiveSNARK.prove_step env pp c_primary c_secondary s0 =
        (Except.ok (), { s0 with i := 1 }) := by
      simp only [RecursiveSNARK.prove_step]
      rw [if_pos hi0]
    rw [hbase] at hps
    injection hps with h1 h2
    subst h2
    have hInv1 : Inv env pp 1 { s0 with i := 1 } := hInv0
    have hi1 : ({ s0 with i := 1 } : RecursiveSNARK τ).i = 1 := rfl
    obtain ⟨hInvN, hiN, hzpN, hzsN⟩ :=
      prove_steps_inv env pp c_primary c_secondary hc m 1 _ sN one_ne_zero hi1 hInv1 hsteps
    have harith : 1 + m = m + 1 := by omega
    rw [harith] at hInvN hiN
    exact verify_of_inv env pp sN (m + 1) z0_primary z0_secondary hInvN hiN
      (Nat.succ_ne_zero m) (hzpN.trans hzp0) (hzsN.trans hzs0)
  next e s2 hps =>
    simp at hsteps

/-- C1 witness: over the concrete environment, one prove_step after new
yields a state whose verification at 1 returns the stored outputs. -/
theorem verify_succeeds_after_prove_steps_witness :
    RecursiveSNARK.verify envC ppC s1C 1 [0] [0] = Except.ok ([0], [0]) :=
  verify_succeeds_after_prove_steps tyNat envC ppC () () [0] [0] 1 s0C s1C
    contracts_envC (by decide) rfl rfl

/-- C2: under a prologue-passing state, verify recomputes hashPrimary (a
secondary-engine random oracle over NUM_FE_WITHOUT_IO_FOR_CRHF plus twice the
primary arity absorbed elements, squeezed to NUM_HASH_BITS bits, absorbing
the digest, the step count, z0_primary, zi_primary, the secondary running
instance and ri_primary) and symmetrically hashSecondary, proceeds to the
satisfiability checks when hashPrimary equals X 0 of the pending secondary
instance and hashSecondary equals its X 1 reinterpreted in the other field,
and returns ProofVerifyError otherwise. -/
theorem verify_recomputes_hashes (τ : Ty) (env : Env τ) (pp : PublicParams τ)
    (s : RecursiveSNARK τ) (num_steps : Nat)
    (z0_primary : List τ.F1) (z0_secondary : List τ.F2)
    (hn : num_steps ≠ 0) (hi : s.i = num_steps)
    (hzp : s.z0_primary = z0_primary) (hzs : s.z0_secondary = z0_secondary)
    (hl1 : s.l_u_secondary.X.length = 2) (hl2 : s.r_U_primary.X.length = 2)
    (hl3 : s.r_U_secondary.X.length = 2) :
    (hashPrimary env pp num_steps z0_primary s.zi_primary s.r_U_secondary s.ri_primary =
        s.l_u_secondary.X.getD 0 env.zero_f2 →
      hashSecondary env pp num_steps z0_secondary s.zi_secondary s.r_U_primary s.ri_secondary =
        env.scalar_as_base_2 (s.l_u_secondary.X.getD 1 env.zero_f2) →
      RecursiveSNARK.verify env pp s num_steps z0_primary z0_secondary =
        satChecks env pp s) ∧
    (¬(hashPrimary env pp num_steps z0_primary s.zi_primary s.r_U_secondary s.ri_primary =
          s.l_u_secondary.X.getD 0 env.zero_f2 ∧
        hashSecondary env pp num_steps z0_secondary s.zi_secondary s.r_U_primary
            s.ri_secondary =
          env.scalar_as_base_2 (s.l_u_secondary.X.getD 1 env.zero_f2)) →
      RecursiveSNARK.verify env pp s num_steps z0_primary z0_secondary =
        Except.error NovaError.proofVerifyError) := by
  have hcond1 : ¬(num_steps = 0 ∨ s.i ≠ num_steps ∨ s.z0_primary ≠ z0_primary ∨
      s.z0_secondary ≠ z0_secondary ∨ s.l_u_secondary.X.length ≠ 2 ∨
      s.r_U_primary.X.length ≠ 2 ∨ s.r_U_secondary.X.length ≠ 2) := by
    simp [hn, hi, hzp, hzs, hl1, hl2, hl3]
  constructor
  · intro h1 h2
    have hcond2 : ¬(hashPrimary env pp num_steps z0_primary s.zi_primary s.r_U_secondary
          s.ri_primary ≠ s.l_u_secondary.X.getD 0 env.zero_f2 ∨
        hashSecondary env pp num_steps z0_secondary s.zi_secondary s.r_U_primary
          s.ri_secondary ≠
          env.scalar_as_base_2 (s.l_u_secondary.X.getD 1 env.zero_f2)) := by
      push_neg
      exact ⟨h1, h2⟩
    simp only [RecursiveSNARK.verify]
    rw [if_neg hcond1, if_neg hcond2]
  · intro hne
    have hcond2 : hashPrimary env pp num_steps z0_primary s.zi_primary s.r_U_secondary
          s.ri_primary ≠ s.l_u_secondary.X.getD 0 env.zero_f2 ∨
        hashSecondary env pp num_steps z0_secondary s.zi_secondary s.r_U_primary
          s.ri_secondary ≠
          env.scalar_as_base_2 (s.l_u_secondary.X.getD 1 env.zero_f2) := by
      rcases Classical.em (hashPrimary env pp num_steps z0_primary s.zi_primary
          s.r_U_secondary s.ri_primary = s.l_u_secondary.X.getD 0 env.zero_f2) with hA | hA
      · exact Or.inr (fun hB => hne ⟨hA, hB⟩)
      · exact Or.inl hA
    simp only [RecursiveSNARK.verify]
    rw [if_neg hcond1, if_pos hcond2]

/-- C2 witness: over the concrete environment, the hash comparison succeeds
at step 1 and verify reduces to the satisfiability checks. -/
theorem verify_recomputes_hashes_witness :
    RecursiveSNARK.verify envC ppC s1C 1 [0] [0] = satChecks envC ppC s1C :=
  (verify_recomputes_hashes tyNat envC ppC s1C 1 [0] [0]
    (by decide) rfl rfl rfl rfl rfl rfl).1 rfl rfl

/-- C3: verify returns ProofVerifyError whenever the step count is zero or
differs from the internal counter, the supplied initial inputs differ from
the stored ones, or one of the three tracked instances does not have exactly
two public IO values; the rejection holds for every collaborator environment,
so these checks precede the hash and satisfiability checks. -/
theorem verify_rejects_malformed_prologue (τ : Ty) (env : Env τ) (pp : PublicParams τ)
    (s : RecursiveSNARK τ) (num_steps : Nat)
    (z0_primary : List τ.F1) (z0_secondary : List τ.F2)
    (h : num_steps = 0 ∨ s.i ≠ num_steps ∨ s.z0_primary ≠ z0_primary ∨
      s.z0_secondary ≠ z0_secondary ∨ s.l_u_secondary.X.length ≠ 2 ∨
      s.r_U_primary.X.length ≠ 2 ∨ s.r_U_secondary.X.length ≠ 2) :
    RecursiveSNARK.verify env pp s num_steps z0_primary z0_secondary =
      Except.error NovaError.proofVerifyError := by
  simp only [RecursiveSNARK.verify]
  rw [if_pos h]

/-- C3 witness: verification at step count 0 is rejected. -/
theorem verify_rejects_malformed_prologue_witness :
    RecursiveSNARK.verify envC ppC s1C 0 [0] [0] =
      Except.error NovaError.proofVerifyError :=
  verify_rejects_malformed_prologue tyNat envC ppC s1C 0 [0] [0] (Or.inl rfl)

/-- C4 counterexample: prove_step is not atomic on failure.  With a secondary
synthesis whose step outputs are unassigned (as the exported GenericCircuit
permits), prove_step returns the AssignmentMissing error after having already
overwritten zi_primary. -/
theorem prove_step_atomicity_cex :
    (RecursiveSNARK.prove_step envCex ppC () () sCex).1 =
      Except.error NovaError.assignmentMissing ∧
    (RecursiveSNARK.prove_step envCex ppC () () sCex).2.zi_primary ≠ sCex.zi_primary :=
  ⟨rfl, by decide⟩

/-- C4 amended: if prove_step returns an error, every field of the
RecursiveSNARK except possibly zi_primary equals its value before the call;
zi_primary may have been overwritten when the error arises while extracting
the secondary step outputs. -/
theorem prove_step_error_frame (τ : Ty) (env : Env τ) (pp : PublicParams τ)
    (c_primary : τ.CP) (c_secondary : τ.CS) (s : RecursiveSNARK τ) (e : NovaError)
    (h : (RecursiveSNARK.prove_step env pp c_primary c_secondary s).1 = Except.error e) :
    ∃ z, (RecursiveSNARK.prove_step env pp c_primary c_secondary s).2 =
      { s with zi_primary := z } := by
  rcases hps : RecursiveSNARK.prove_step env pp c_primary c_secondary s with ⟨r, s2⟩
  rw [hps] at h
  dsimp only at h
  subst h
  dsimp only
  simp only [RecursiveSNARK.prove_step] at hps
  by_cases hi : s.i = 0
  · rw [if_pos hi] at hps
    injection hps with h1 h2
    exact absurd h1 (by simp)
  · rw [if_neg hi] at hps
    split at hps
    · injection hps with h1 h2
      exact ⟨s.zi_primary, h2.symm⟩
    next nifsS rUs2 rWs2 hE =>
      split at hps
      · injection hps with h1 h2
        exact ⟨s.zi_primary, h2.symm⟩
      next ziPv luP lwP hEP =>
        split at hps
        · injection hps with h1 h2
          exact ⟨s.zi_primary, h2.symm⟩
        next nifsP rUp2 rWp2 hE1 =>
          split at hps
          · injection hps with h1 h2
            exact ⟨s.zi_primary, h2.symm⟩
          next ziSv luS lwS hES =>
            split at hps
            · injection hps with h1 h2
              exact ⟨s.zi_primary, h2.symm⟩
            next ziP hCP =>
              split at hps
              · injection hps with h1 h2
                exact ⟨ziP, h2.symm⟩
              next ziS hCS =>
                injection hps with h1 h2
                exact absurd h1 (by simp)

/-- C4 amended witness: at the concrete failing input, all fields except
zi_primary are preserved. -/
theorem prove_step_error_frame_witness :
    ∃ z, (RecursiveSNARK.prove_step envCex ppC () () sCex).2 =
      { sCex with zi_primary := z } :=
  prove_step_error_frame tyNat envCex ppC () () sCex NovaError.assignmentMissing rfl

/-- C5: prove_step is deterministic: on equal states with the same public
parameters and circuits it returns equal result-and-post-state pairs, and on
success past the base case the freshly sampled blinds stored in the state are
the ChaCha20 draws at the fixed seed 0xDEADBEEF, independent of the state. -/
theorem prove_step_deterministic (τ : Ty) (env : Env τ) (pp : PublicParams τ)
    (c_primary : τ.CP) (c_secondary : τ.CS) (s t : RecursiveSNARK τ) (h : s = t) :
    RecursiveSNARK.prove_step env pp c_primary c_secondary s =
      RecursiveSNARK.prove_step env pp c_primary c_secondary t ∧
    (s.i ≠ 0 → ∀ s1, RecursiveSNARK.prove_step env pp c_primary c_secondary s =
        (Except.ok (), s1) →
      s1.ri_primary = env.chacha_f1 NOVA_RNG_SEED ∧
      s1.ri_secondary = env.chacha_f2 NOVA_RNG_SEED) := by
  subst h
  refine ⟨rfl, ?_⟩
  intro hi s1 hok
  obtain ⟨nifsS, rUs2, rWs2, outP, nifsP, rUp2, rWp2, outS, ziP, ziS,
    _, _, _, _, _, _, hs1⟩ := prove_step_ok_spec env pp c_primary c_secondary s s1 hi hok
  subst hs1
  exact ⟨rfl, rfl⟩

/-- C5 witness: determinism applied at a concrete state. -/
theorem prove_step_deterministic_witness :
    RecursiveSNARK.prove_step envC ppC () () s1C =
      RecursiveSNARK.prove_step envC ppC () () s1C ∧
    (s1C.i ≠ 0 → ∀ s1, RecursiveSNARK.prove_step envC ppC () () s1C =
        (Except.ok (), s1) →
      s1.ri_primary = envC.chacha_f1 NOVA_RNG_SEED ∧
      s1.ri_secondary = envC.chacha_f2 NOVA_RNG_SEED) :=
  prove_step_deterministic tyNat envC ppC () () s1C s1C rfl

/-- C6: when the step counter is 0, prove_step sets it to 1, returns Ok and
leaves every other field of the RecursiveSNARK unchanged, performing no
collaborator call. -/
theorem prove_step_first_call_only_increments (τ : Ty) (env : Env τ) (pp : PublicParams τ)
    (c_primary : τ.CP) (c_secondary : τ.CS) (s : RecursiveSNARK τ) (h : s.i = 0) :
    RecursiveSNARK.prove_step env pp c_primary c_secondary s =
      (Except.ok (), { s with i := 1 }) := by
  simp only [RecursiveSNARK.prove_step]
  rw [if_pos h]

/-- C6 witness: the base-case step applied to the concrete initial state. -/
theorem prove_step_first_call_only_increments_witness :
    RecursiveSNARK.prove_step envC ppC () () s0C = (Except.ok (), s1C) :=
  prove_step_first_call_only_increments tyNat envC ppC () () s0C rfl

/-- C7: PublicParams::setup returns InvalidStepCircuitIO whenever either
synthesized augmented-circuit shape has a number of public IO different
from 2, as happens when a user step circuit inputizes an extra public
variable on that side. -/
theorem setup_rejects_bad_shape (τ : Ty) (env : Env τ)
    (c_primary : τ.CP) (c_secondary : τ.CS) (ck_hint1 : τ.Hint1) (ck_hint2 : τ.Hint2)
    (h : (env.r1cs_shape_p c_primary ck_hint1).1.numIo ≠ 2 ∨
      (env.r1cs_shape_s c_secondary ck_hint2).1.numIo ≠ 2) :
    PublicParams.setup env c_primary c_secondary ck_hint1 ck_hint2 =
      Except.error NovaError.invalidStepCircuitIo := by
  simp only [PublicParams.setup]
  rw [if_pos h]

/-- C7 witness: a primary synthesis producing three public IO values is
rejected at setup. -/
theorem setup_rejects_bad_shape_witness :
    PublicParams.setup envC7 () () () () = Except.error NovaError.invalidStepCircuitIo :=
  setup_rejects_bad_shape tyNat envC7 () () () () (Or.inl (by decide))

/-- C8: RecursiveSNARK::new returns InvalidInitialInputLength when either
initial input length differs from the corresponding arity; the rejection
holds for every collaborator environment, so it happens before any circuit
synthesis or randomness sampling. -/
theorem new_rejects_bad_initial_input_length (τ : Ty) (env : Env τ) (pp : PublicParams τ)
    (c_primary : τ.CP) (c_secondary : τ.CS)
    (z0_primary : List τ.F1) (z0_secondary : List τ.F2)
    (h : z0_primary.length ≠ pp.F_arity_primary ∨
      z0_secondary.length ≠ pp.F_arity_secondary) :
    RecursiveSNARK.new env pp c_primary c_secondary z0_primary z0_secondary =
      Except.error NovaError.invalidInitialInputLength := by
  simp only [RecursiveSNARK.new]
  rw [if_pos h]

/-- C8 witness: an initial primary input of length 2 against arity 1 is
rejected. -/
theorem new_rejects_bad_initial_input_length_witness :
    RecursiveSNARK.new envC ppC () () [0, 0] [0] =
      Except.error NovaError.invalidInitialInputLength :=
  new_rejects_bad_initial_input_length tyNat envC ppC () () [0, 0] [0]
    (Or.inl (by decide))

/-- C9: CompressedSNARK::verify returns ProofVerifyError for every proof,
verifier key and pair of initial inputs when the step count is 0. -/
theorem compressed_verify_rejects_zero_steps (τ : Ty) (env : Env τ)
    (vk : VerifierKey τ) (self : CompressedSNARK τ)
    (z0_primary : List τ.F1) (z0_secondary : List τ.F2) :
    CompressedSNARK.verify env vk self 0 z0_primary z0_secondary =
      Except.error NovaError.proofVerifyError := by
  simp [CompressedSNARK.verify]

/-- C10: the exported GenericCircuit breaks the step-circuit contract: the
instantiation with arity 1 and an empty stored list reports arity 1 while its
synthesize ignores the constraint system and the input and always returns the
empty list, whose length differs from the arity. -/
theorem generic_circuit_violates_arity :
    (GenericCircuit.new 1 ([] : List (AllocatedNum Nat))).arity = 1 ∧
    ∀ (CSy : Type) (cs : CSy) (z : List (AllocatedNum Nat)),
      (GenericCircuit.new 1 ([] : List (AllocatedNum Nat))).synthesize cs z =
        Except.ok [] ∧
      ∀ out, (GenericCircuit.new 1 ([] : List (AllocatedNum Nat))).synthesize cs z =
          Except.ok out →
        out.length ≠ (GenericCircuit.new 1 ([] : List (AllocatedNum Nat))).arity := by
  refine ⟨rfl, fun CSy cs z => ⟨rfl, ?_⟩⟩
  intro out h
  injection h with h
  subst h
  decide

end Nova
